import Mathlib

/-!
Verification development for the minestock-ai repository.

The repository is a small front-end over an AI completion API:
a service module (`analyzeMaterialCode`, `generateBulkAnalysis`,
`getMockData`, `MATERIAL_SCHEMA`) and a dashboard component
(`handleSubmit`, `handleFile`).  This file gives a shallow embedding
of those functions and proves the claimed properties about them.

Numbers are modelled as rationals (every numeric literal in the source
is an exact decimal), strings as Lean strings, and the outcome of the
external AI call as an explicit `ApiOutcome` value passed in, together
with a `parse` function modelling `JSON.parse` (`none` = parse throws).
-/

/-- A stock location entry (`locations` items of the material schema). -/
structure LocationStock where
  name : String
  stock : ℚ
  lastUsed : String
deriving DecidableEq, Repr

/-- One duplicate record (`duplicateAnalysis.duplicates` items). -/
structure DuplicateItem where
  materialCode : String
  manufacturer : String
  description : String
  stockInHand : ℚ
  annualUsage : ℚ
  lastUsed : String
  location : String
  unitCost : ℚ
deriving DecidableEq, Repr

/-- The `duplicateAnalysis` sub-object of a material profile. -/
structure DuplicateAnalysis where
  totalDuplicates : ℚ
  totalStockAcrossDuplicates : ℚ
  potentialSavings : ℚ
  duplicates : List DuplicateItem
deriving DecidableEq, Repr

/-- The `obsolescence` sub-object of a material profile. -/
structure Obsolescence where
  riskLevel : String
  yearsInStock : ℚ
  marketAvailability : String
deriving DecidableEq, Repr

/-- The `ropMax` sub-object of a material profile. -/
structure RopMax where
  reorderPoint : ℚ
  maxStock : ℚ
  currentStatus : String
deriving DecidableEq, Repr

/-- The `ropCalculation.inputParameters` sub-object. -/
structure InputParameters where
  annualUsage : ℚ
  leadTime : ℚ
  criticality : String
  unitPrice : ℚ
deriving DecidableEq, Repr

/-- The `ropCalculation.baseCalculations` sub-object. -/
structure BaseCalculations where
  baseROP : ℚ
  baseEOQ : ℚ
  baseMAX : ℚ
deriving DecidableEq, Repr

/-- The `ropCalculation.adjustments` sub-object. -/
structure Adjustments where
  reason : String
  duplicateDeduction : ℚ
  obsolescenceDeduction : ℚ
  totalDeduction : ℚ
deriving DecidableEq, Repr

/-- The `ropCalculation` sub-object of a material profile. -/
structure RopCalculation where
  suggestedROP : ℚ
  suggestedMAX : ℚ
  suggestedEOQ : ℚ
  requestedROP : ℚ
  requestedMAX : ℚ
  inputParameters : InputParameters
  baseCalculations : BaseCalculations
  adjustments : Adjustments
deriving DecidableEq, Repr

/-- The `MaterialProfile` record, as shaped by `MATERIAL_SCHEMA` and the
mock object literal in the service module. -/
structure MaterialProfile where
  materialName : String
  materialCode : String
  description : String
  totalQuantity : ℚ
  averageUnitCost : ℚ
  materialType : String
  stockingStatus : String
  criticality : String
  estimatedAnnualUsage : ℚ
  locations : List LocationStock
  equipmentParent : List String
  lastUsedDate : String
  duplicateAnalysis : DuplicateAnalysis
  obsolescence : Obsolescence
  ropMax : RopMax
  ropCalculation : RopCalculation
deriving DecidableEq, Repr

/-- The enum constraint on `stockingStatus` in `MATERIAL_SCHEMA`. -/
def stockingStatusEnum : List String := ["Stock Normally", "Do not Stock", "Stock Minimal"]

/-- The enum constraint on `criticality` in `MATERIAL_SCHEMA`. -/
def criticalityEnum : List String := ["A", "B", "C", "D"]

/-- The enum constraint on `obsolescence.riskLevel` in `MATERIAL_SCHEMA`. -/
def riskLevelEnum : List String := ["Low", "Medium", "High"]

/-- The enum constraint on `ropMax.currentStatus` in `MATERIAL_SCHEMA`. -/
def currentStatusEnum : List String := ["Reorder", "Overstock", "Optimal"]

/-- Embedding of `getMockData` from the service module: the static fallback
profile, with `materialCode` set to the requested code. -/
def getMockData (code : String) : MaterialProfile :=
  { materialName := "Spherical Roller Bearing 22216"
    materialCode := code
    description := "Heavy duty spherical roller bearing for conveyor pulley"
    totalQuantity := 45
    averageUnitCost := 250
    materialType := "Spare Part"
    stockingStatus := "Stock Normally"
    criticality := "B"
    estimatedAnnualUsage := 120
    locations := [
      { name := "Site A - Warehouse 1", stock := 20, lastUsed := "2023-10-15" },
      { name := "Site B - Central", stock := 25, lastUsed := "2022-05-20" }]
    equipmentParent := ["600000236064", "600000998877", "500200112233"]
    lastUsedDate := "2023-10-15"
    duplicateAnalysis := {
      totalDuplicates := 2
      totalStockAcrossDuplicates := 120
      potentialSavings := 30000
      duplicates := [
        { materialCode := "998877665"
          manufacturer := "SKF"
          description := "Bearing 22216 EK"
          stockInHand := 80
          annualUsage := 5
          lastUsed := "2021-01-10"
          location := "Site A - Warehouse 1"
          unitCost := 280 },
        { materialCode := "112233445"
          manufacturer := "Timken"
          description := "Roller Bearing 22216-E1"
          stockInHand := 40
          annualUsage := 12
          lastUsed := "2023-11-01"
          location := "Site C"
          unitCost := 240 }] }
    obsolescence := {
      riskLevel := "High"
      yearsInStock := 2.5
      marketAvailability := "Readily Available" }
    ropMax := {
      reorderPoint := 10
      maxStock := 50
      currentStatus := "Overstock" }
    ropCalculation := {
      suggestedROP := 10
      suggestedMAX := 50
      suggestedEOQ := 15
      requestedROP := 12
      requestedMAX := 60
      inputParameters := {
        annualUsage := 120
        leadTime := 30
        criticality := "B"
        unitPrice := 250 }
      baseCalculations := {
        baseROP := 12
        baseEOQ := 15
        baseMAX := 60 }
      adjustments := {
        reason := "High duplication detected across sites"
        duplicateDeduction := 2
        obsolescenceDeduction := 0
        totalDeduction := 2 } } }

/-- Outcome of the external AI completion call made by `analyzeMaterialCode`:
either the promise rejects (`failure`), or it resolves with an optional
`response.text` field. -/
inductive ApiOutcome where
  | failure : ApiOutcome
  | success (text : Option String) : ApiOutcome
deriving DecidableEq, Repr

/-- Embedding of `analyzeMaterialCode` from the service module.
`parse` models `JSON.parse` followed by the cast to `MaterialProfile`
(`none` = `JSON.parse` throws); `outcome` models the result of
`ai.models.generateContent`.  The source checks `if (response.text)`,
so an absent or empty text is falsy and the `No data returned` error is
thrown; every error is caught and answered with `getMockData code`. -/
def analyzeMaterialCode (parse : String → Option MaterialProfile)
    (outcome : ApiOutcome) (code : String) : MaterialProfile :=
  match outcome with
  | .failure => getMockData code
  | .success none => getMockData code
  | .success (some t) =>
      if t = "" then getMockData code
      else
        match parse t with
        | some p => p
        | none => getMockData code

/-- `List.map` with the element index, as used by
`demoCodes.map((code, index) => ...)` in `generateBulkAnalysis`. -/
def mapWithIndex (f : Nat → α → β) : Nat → List α → List β
  | _, [] => []
  | i, a :: as => f i a :: mapWithIndex f (i + 1) as

/-- The in-place field overrides `generateBulkAnalysis` applies to the
mock profile at indices 1 and 2 of the demo list. -/
def applyOverride (index : Nat) (base : MaterialProfile) : MaterialProfile :=
  if index = 1 then
    { base with
        materialType := "Consumable"
        criticality := "C"
        stockingStatus := "Do not Stock"
        totalQuantity := 1200
        duplicateAnalysis :=
          { base.duplicateAnalysis with totalDuplicates := 0, duplicates := [] } }
  else if index = 2 then
    { base with
        materialType := "Hydraulic"
        criticality := "A"
        stockingStatus := "Stock Minimal"
        totalQuantity := 5 }
  else base

/-- The `demoCodes` local of `generateBulkAnalysis`: the first three input
codes, or three hard-coded defaults when the input list is empty. -/
def demoCodes (codes : List String) : List String :=
  if codes.length > 0 then codes.take 3
  else ["401121145", "401121146", "401121147"]

/-- Embedding of `generateBulkAnalysis` from the service module: it builds
every profile from `getMockData` (no AI call appears in its body), with
the index-1 and index-2 overrides. -/
def generateBulkAnalysis (codes : List String) : List MaterialProfile :=
  mapWithIndex (fun index code => applyOverride index (getMockData code)) 0 (demoCodes codes)

/-- Modelled from the spec: the bulk behaviour the spec sentence describes
("the service function calls an external AI completion endpoint with a
fixed response schema, falls back to static mock records on failure"),
i.e. one AI call per requested code, each with the mock fallback of
`analyzeMaterialCode`.  The source's `generateBulkAnalysis` makes no such
call; this definition exists to compare the spec's words with the source. -/
def specBulkAnalysis (parse : String → Option MaterialProfile)
    (api : String → ApiOutcome) (codes : List String) : List MaterialProfile :=
  codes.map (fun code => analyzeMaterialCode parse (api code) code)

/-- Characters removed by JavaScript `String.prototype.trim` (the ASCII
white-space and line-terminator characters relevant here). -/
def isJsWhitespace (c : Char) : Bool :=
  c = ' ' || c = '\t' || c = '\n' || c = '\r' || c = Char.ofNat 11 || c = Char.ofNat 12

/-- JavaScript `String.prototype.trim`: drop whitespace from both ends. -/
def jsTrim (s : String) : String :=
  String.mk (((s.toList.dropWhile isJsWhitespace).reverse.dropWhile isJsWhitespace).reverse)

/-- JavaScript `text.split(/\r?\n/)` on a character list: a line ends at
each `\n`, optionally preceded by a `\r` that is consumed with it; a `\r`
not followed by `\n` stays in the line. -/
def splitLinesAux : List Char → List Char → List (List Char)
  | [], acc => [acc.reverse]
  | '\r' :: '\n' :: rest, acc => acc.reverse :: splitLinesAux rest []
  | '\n' :: rest, acc => acc.reverse :: splitLinesAux rest []
  | c :: rest, acc => splitLinesAux rest (c :: acc)

/-- JavaScript `text.split(/\r?\n/)` on strings. -/
def jsSplitLines (text : String) : List String :=
  (splitLinesAux text.toList []).map String.mk

/-- JavaScript `row.split(',')[0]`: the characters before the first comma
(the whole string when it has no comma). -/
def firstField (row : String) : String :=
  String.mk (row.toList.takeWhile (fun c => c ≠ ','))

/-- JavaScript `String.prototype.toLowerCase` restricted to ASCII, which
is all the header comparison in `handleFile` needs. -/
def jsToLower (s : String) : String :=
  String.mk (s.toList.map Char.toLower)

/-- Embedding of the parsing step of `handleFile` in `Dashboard.tsx`:
split on `/\r?\n/`, take the first comma-separated field of each row,
trim it, and keep the non-empty values that are not the header literal;
the result is the `codes` list passed to `onUpload`. -/
def handleFileCodes (text : String) : List String :=
  ((jsSplitLines text).map (fun row => jsTrim (firstField row))).filter
    (fun code => code.length > 0 && jsToLower code ≠ "material code")

/-- Embedding of `handleSubmit` in `Dashboard.tsx`: `some q` means
`onSearch q` is invoked, `none` means it is not.  The source guards with
the truthiness of `searchInput.trim()`, i.e. non-emptiness. -/
def handleSubmit (searchInput : String) : Option String :=
  if jsTrim searchInput ≠ "" then some (jsTrim searchInput) else none

/-- The conjunction of the four enum constraints `MATERIAL_SCHEMA` imposes
on a material profile. -/
def validEnums (p : MaterialProfile) : Prop :=
  p.stockingStatus ∈ stockingStatusEnum ∧ p.criticality ∈ criticalityEnum ∧
  p.obsolescence.riskLevel ∈ riskLevelEnum ∧ p.ropMax.currentStatus ∈ currentStatusEnum

/-- A concrete profile standing for a successful AI answer, distinguishable
from every mock profile by its `materialName`. -/
def apiProfile : MaterialProfile :=
  { getMockData "401121145" with materialName := "AI Result" }

/-- A concrete parse function: the response text `ok` parses to `apiProfile`. -/
def parseDemo : String → Option MaterialProfile :=
  fun t => if t = "ok" then some apiProfile else none

/-- A concrete API behaviour that always succeeds with text `ok`. -/
def apiAlwaysOk : String → ApiOutcome :=
  fun _ => ApiOutcome.success (some "ok")

theorem length_mapWithIndex {α β : Type} (f : Nat → α → β) (start : Nat) (l : List α) :
    (mapWithIndex f start l).length = l.length := by
  induction l generalizing start with
  | nil => rfl
  | cons a as ih => simp [mapWithIndex, ih]

theorem mem_mapWithIndex {α β : Type} (f : Nat → α → β) (start : Nat) (l : List α) (b : β)
    (hb : b ∈ mapWithIndex f start l) : ∃ j a, a ∈ l ∧ b = f j a := by
  induction l generalizing start with
  | nil => simp [mapWithIndex] at hb
  | cons a as ih =>
    simp only [mapWithIndex, List.mem_cons] at hb
    rcases hb with h | h
    · exact ⟨start, a, List.mem_cons_self a as, h⟩
    · rcases ih (start + 1) h with ⟨j, c, hc, hbc⟩
      exact ⟨j, c, List.mem_cons_of_mem _ hc, hbc⟩

theorem get_mapWithIndex {α β : Type} (f : Nat → α → β) :
    ∀ (l : List α) (start i : Nat) (h : i < l.length)
      (h2 : i < (mapWithIndex f start l).length),
      (mapWithIndex f start l).get ⟨i, h2⟩ = f (start + i) (l.get ⟨i, h⟩)
  | [], _, i, h, _ => absurd h (Nat.not_lt_zero i)
  | a :: as, start, 0, _, _ => rfl
  | a :: as, start, i + 1, h, h2 => by
      have hn : i < as.length := Nat.lt_of_succ_lt_succ h
      have hrec := get_mapWithIndex f as (start + 1) i hn
        (by rw [length_mapWithIndex]; exact hn)
      calc (mapWithIndex f start (a :: as)).get ⟨i + 1, h2⟩
          = (mapWithIndex f (start + 1) as).get
              ⟨i, by rw [length_mapWithIndex]; exact hn⟩ := rfl
        _ = f (start + 1 + i) (as.get ⟨i, hn⟩) := hrec
        _ = f (start + (i + 1)) ((a :: as).get ⟨i + 1, h⟩) := by
              rw [Nat.add_assoc, Nat.add_comm 1 i]
              rfl

theorem applyOverride_materialCode (i : Nat) (b : MaterialProfile) :
    (applyOverride i b).materialCode = b.materialCode := by
  unfold applyOverride
  split
  · rfl
  split
  · rfl
  · rfl

theorem validEnums_getMockData (code : String) : validEnums (getMockData code) := by
  refine ⟨?_, ?_, ?_, ?_⟩
  · show "Stock Normally" ∈ stockingStatusEnum
    simp [stockingStatusEnum]
  · show "B" ∈ criticalityEnum
    simp [criticalityEnum]
  · show "High" ∈ riskLevelEnum
    simp [riskLevelEnum]
  · show "Overstock" ∈ currentStatusEnum
    simp [currentStatusEnum]

theorem validEnums_applyOverride (i : Nat) (b : MaterialProfile) (hb : validEnums b) :
    validEnums (applyOverride i b) := by
  rcases hb with ⟨h1, h2, h3, h4⟩
  unfold applyOverride
  split
  · exact ⟨by simp [stockingStatusEnum], by simp [criticalityEnum], h3, h4⟩
  split
  · exact ⟨by simp [stockingStatusEnum], by simp [criticalityEnum], h3, h4⟩
  · exact ⟨h1, h2, h3, h4⟩

theorem get_take_eq_get {α : Type} (l : List α) (n i : Nat) (h : i < (l.take n).length)
    (h2 : i < l.length) : (l.take n).get ⟨i, h⟩ = l.get ⟨i, h2⟩ := by
  simp [List.getElem_take]

theorem length_pos_of_ne_empty (s : String) (h : s ≠ "") : 0 < s.length := by
  cases s with
  | mk data =>
    cases data with
    | nil => exact absurd rfl h
    | cons a as => simp

/-- C1: for every material code, when the AI completion call throws, or
resolves with an absent or empty `response.text`, `analyzeMaterialCode`
returns the mock fallback profile for that code instead of propagating
the error to its caller. -/
theorem analyzeMaterialCode_falls_back_on_error (parse : String → Option MaterialProfile)
    (outcome : ApiOutcome) (code : String)
    (h : outcome = ApiOutcome.failure ∨ outcome = ApiOutcome.success none ∨
      outcome = ApiOutcome.success (some "")) :
    analyzeMaterialCode parse outcome code = getMockData code := by
  rcases h with h | h | h <;> subst h <;> rfl

theorem analyzeMaterialCode_falls_back_on_error_witness :
    analyzeMaterialCode (fun _ => none) ApiOutcome.failure "401121145" =
      getMockData "401121145" :=
  analyzeMaterialCode_falls_back_on_error (fun _ => none) ApiOutcome.failure "401121145"
    (Or.inl rfl)

/-- C2 counterexample: the profile returned on API failure is not the same
record for any two requested codes: for codes A and B the two fallback
results differ, in their `materialCode` field. -/
theorem fallback_differs_across_codes :
    analyzeMaterialCode (fun _ => none) ApiOutcome.failure "A" ≠
      analyzeMaterialCode (fun _ => none) ApiOutcome.failure "B" := by
  intro hEq
  have h : ("A" : String) = "B" := congrArg MaterialProfile.materialCode hEq
  exact absurd h (by decide)

/-- C2 (amended): the fallback object is static apart from its
`materialCode` field: on API failure, any two requested codes yield
profiles that are equal after erasing `materialCode`, and the
`materialCode` field equals the requested code. -/
theorem fallback_static_except_materialCode (parse : String → Option MaterialProfile)
    (c1 c2 : String) :
    { analyzeMaterialCode parse ApiOutcome.failure c1 with materialCode := "" } =
      { analyzeMaterialCode parse ApiOutcome.failure c2 with materialCode := "" } ∧
    (analyzeMaterialCode parse ApiOutcome.failure c1).materialCode = c1 :=
  ⟨rfl, rfl⟩

/-- C3 counterexample: the bulk path does not call the AI endpoint and
does not reserve mock records for failures: with an API that succeeds on
every code, the spec-modelled bulk behaviour returns the AI profile while
`generateBulkAnalysis` still returns the mock record. -/
theorem generateBulkAnalysis_mock_despite_api_success :
    generateBulkAnalysis ["401121145"] = [getMockData "401121145"] ∧
    specBulkAnalysis parseDemo apiAlwaysOk ["401121145"] = [apiProfile] ∧
    generateBulkAnalysis ["401121145"] ≠
      specBulkAnalysis parseDemo apiAlwaysOk ["401121145"] := by
  refine ⟨rfl, rfl, fun hEq => ?_⟩
  have hEq2 : [getMockData "401121145"] = [apiProfile] := hEq
  injection hEq2 with h1 h2
  have h3 : ("Spherical Roller Bearing 22216" : String) = "AI Result" :=
    congrArg MaterialProfile.materialName h1
  exact absurd h3 (by decide)

/-- C3 (amended): the single-code service call matches the spec sentence,
returning the AI profile when the call succeeds with non-empty parseable
text and the mock record on failure, while the bulk service function
never consults the endpoint: every profile it returns is an indexed
override of the mock record of one of the demo codes. -/
theorem single_uses_api_bulk_always_mock (parse : String → Option MaterialProfile)
    (code t : String) (p : MaterialProfile) (ht : t ≠ "") (hp : parse t = some p)
    (codes : List String) :
    analyzeMaterialCode parse (ApiOutcome.success (some t)) code = p ∧
    analyzeMaterialCode parse ApiOutcome.failure code = getMockData code ∧
    ∀ q ∈ generateBulkAnalysis codes,
      ∃ j c, c ∈ demoCodes codes ∧ q = applyOverride j (getMockData c) := by
  refine ⟨?_, rfl, ?_⟩
  · simp only [analyzeMaterialCode]
    rw [if_neg ht, hp]
  · intro q hq
    exact mem_mapWithIndex _ 0 (demoCodes codes) q hq

theorem single_uses_api_bulk_always_mock_witness :
    analyzeMaterialCode parseDemo (ApiOutcome.success (some "ok")) "401121145" = apiProfile ∧
    analyzeMaterialCode parseDemo ApiOutcome.failure "401121145" = getMockData "401121145" ∧
    ∀ q ∈ generateBulkAnalysis ["401121145"],
      ∃ j c, c ∈ demoCodes ["401121145"] ∧ q = applyOverride j (getMockData c) :=
  single_uses_api_bulk_always_mock parseDemo "401121145" "ok" apiProfile (by decide) rfl
    ["401121145"]

/-- C4: mock generation is deterministic: two runs of `getMockData` on the
same code and two runs of `generateBulkAnalysis` on the same list of codes
yield equal results; both are functions of their arguments alone. -/
theorem mock_generation_deterministic (code : String) (codes : List String) :
    getMockData code = getMockData code ∧
    generateBulkAnalysis codes = generateBulkAnalysis codes :=
  ⟨rfl, rfl⟩

/-- C5: the CSV file handler is a naive line-splitter: the codes list
passed to `onUpload` is exactly the text split on newlines (optionally
preceded by a carriage return), each line reduced to the trim of its
first comma-separated field, keeping in line order the results that are
non-empty and not case-insensitively equal to the header literal
`material code`; a concrete run drops the header row and a blank line. -/
theorem handleFile_is_naive_line_splitter (text : String) :
    handleFileCodes text =
      ((jsSplitLines text).map (fun row => jsTrim (firstField row))).filter
        (fun code => decide (code ≠ "") && decide (jsToLower code ≠ "material code")) ∧
    handleFileCodes "Material Code\r\n 401121145,Site A\n\n66055,Site B" =
      ["401121145", "66055"] := by
  constructor
  · unfold handleFileCodes
    apply List.filter_congr
    intro c _
    congr 1
    apply decide_eq_decide.mpr
    constructor
    · intro hpos hceq
      subst hceq
      exact absurd hpos (by decide)
    · intro hne
      exact length_pos_of_ne_empty c hne
  · rfl

/-- C6: the service returns one or more profiles for every input: the
bulk result is never empty, the empty code list is replaced by the three
default demo codes, and the single-code path always yields exactly one
profile. -/
theorem service_returns_profiles (codes : List String)
    (parse : String → Option MaterialProfile) (outcome : ApiOutcome) (code : String) :
    generateBulkAnalysis codes ≠ [] ∧
    (codes = [] → (generateBulkAnalysis codes).map (fun p => p.materialCode) =
      ["401121145", "401121146", "401121147"]) ∧
    ∃ p, analyzeMaterialCode parse outcome code = p := by
  refine ⟨?_, ?_, ⟨analyzeMaterialCode parse outcome code, rfl⟩⟩
  · intro hEmpty
    have hlen := congrArg List.length hEmpty
    simp only [List.length_nil] at hlen
    unfold generateBulkAnalysis at hlen
    rw [length_mapWithIndex] at hlen
    unfold demoCodes at hlen
    by_cases h : codes.length > 0
    · rw [if_pos h, List.length_take] at hlen
      omega
    · rw [if_neg h] at hlen
      simp at hlen
  · intro h
    subst h
    rfl

theorem service_returns_profiles_witness :
    generateBulkAnalysis [] ≠ [] ∧
    (generateBulkAnalysis ([] : List String)).map (fun p => p.materialCode) =
      ["401121145", "401121146", "401121147"] :=
  ⟨(service_returns_profiles [] (fun _ => none) ApiOutcome.failure "401121145").1,
   (service_returns_profiles [] (fun _ => none) ApiOutcome.failure "401121145").2.1 rfl⟩

/-- C7: every profile produced on the mock path — the fallback record for
any code and every element of the bulk result, including the index-1 and
index-2 overrides — satisfies the four enum constraints of
`MATERIAL_SCHEMA` on `stockingStatus`, `criticality`,
`obsolescence.riskLevel` and `ropMax.currentStatus`. -/
theorem mock_path_respects_schema_enums (code : String) (codes : List String)
    (p : MaterialProfile) (hp : p ∈ generateBulkAnalysis codes) :
    validEnums (getMockData code) ∧ validEnums p := by
  refine ⟨validEnums_getMockData code, ?_⟩
  rcases mem_mapWithIndex _ 0 (demoCodes codes) p hp with ⟨j, c, _, hpc⟩
  rw [hpc]
  exact validEnums_applyOverride j (getMockData c) (validEnums_getMockData c)

theorem mock_path_respects_schema_enums_witness :
    validEnums (getMockData "X") ∧
    validEnums (applyOverride 0 (getMockData "401121145")) :=
  mock_path_respects_schema_enums "X" ["401121145"]
    (applyOverride 0 (getMockData "401121145")) (List.mem_cons_self _ _)

/-- C8: the bulk result has length min(input length, 3) for a non-empty
input and length 3 for the empty input: at most three profiles are
returned no matter how many codes are uploaded. -/
theorem generateBulkAnalysis_length_min (codes : List String) :
    (codes ≠ [] → (generateBulkAnalysis codes).length = min codes.length 3) ∧
    (codes = [] → (generateBulkAnalysis codes).length = 3) := by
  constructor
  · intro h
    have hpos : 0 < codes.length := List.length_pos.mpr h
    unfold generateBulkAnalysis demoCodes
    rw [length_mapWithIndex, if_pos hpos, List.length_take, Nat.min_comm]
  · intro h
    subst h
    rfl

theorem generateBulkAnalysis_length_min_witness :
    (generateBulkAnalysis ["a", "b", "c", "d"]).length =
      min (["a", "b", "c", "d"] : List String).length 3 :=
  (generateBulkAnalysis_length_min ["a", "b", "c", "d"]).1 (by decide)

/-- C9: material codes are preserved: the mock fallback profile carries
the requested code, and for every non-empty input list the i-th bulk
profile carries the i-th input code. -/
theorem bulk_preserves_materialCode (codes : List String) (h : codes ≠ [])
    (i : Nat) (hi : i < (generateBulkAnalysis codes).length) (code : String) :
    (getMockData code).materialCode = code ∧
    ∃ hj : i < codes.length,
      ((generateBulkAnalysis codes).get ⟨i, hi⟩).materialCode = codes.get ⟨i, hj⟩ := by
  refine ⟨rfl, ?_⟩
  have hpos : 0 < codes.length := List.length_pos.mpr h
  have hdemo : demoCodes codes = codes.take 3 := by
    unfold demoCodes
    rw [if_pos hpos]
  have hidemo : i < (demoCodes codes).length := by
    have hlen : (generateBulkAnalysis codes).length = (demoCodes codes).length := by
      unfold generateBulkAnalysis
      rw [length_mapWithIndex]
    omega
  have hitake : i < (codes.take 3).length := hdemo ▸ hidemo
  have hj : i < codes.length := by
    have hmin := hitake
    rw [List.length_take] at hmin
    omega
  refine ⟨hj, ?_⟩
  have key : (generateBulkAnalysis codes).get ⟨i, hi⟩ =
      applyOverride (0 + i) (getMockData ((demoCodes codes).get ⟨i, hidemo⟩)) :=
    get_mapWithIndex (fun index c => applyOverride index (getMockData c))
      (demoCodes codes) 0 i hidemo hi
  rw [key, applyOverride_materialCode]
  show (demoCodes codes).get ⟨i, hidemo⟩ = codes.get ⟨i, hj⟩
  calc (demoCodes codes).get ⟨i, hidemo⟩
      = (codes.take 3).get ⟨i, hitake⟩ := List.get_of_eq hdemo ⟨i, hidemo⟩
    _ = codes.get ⟨i, hj⟩ := get_take_eq_get codes 3 i hitake hj

theorem bulk_preserves_materialCode_witness :
    (getMockData "X").materialCode = "X" ∧
    ∃ hj : 1 < (["66055", "401121145"] : List String).length,
      ((generateBulkAnalysis ["66055", "401121145"]).get ⟨1, by decide⟩).materialCode =
        (["66055", "401121145"] : List String).get ⟨1, hj⟩ :=
  bulk_preserves_materialCode ["66055", "401121145"] (by decide) 1 (by decide) "X"

/-- C10: the search form handler invokes `onSearch` exactly when the
input trimmed of whitespace is non-empty, and then passes exactly that
trimmed string; an empty or all-whitespace input triggers no search. -/
theorem handleSubmit_trimmed_nonempty (s : String) :
    (jsTrim s ≠ "" → handleSubmit s = some (jsTrim s)) ∧
    (jsTrim s = "" → handleSubmit s = none) := by
  constructor
  · intro h
    unfold handleSubmit
    rw [if_pos h]
  · intro h
    unfold handleSubmit
    rw [if_neg (not_not_intro h)]

theorem handleSubmit_trimmed_nonempty_witness :
    handleSubmit " 401121145 " = some "401121145" := by
  have h := (handleSubmit_trimmed_nonempty " 401121145 ").1 (by decide)
  rw [h]
  rfl
